import Mathlib

/-!
Shallow embedding of `src/src-tauri/src/core/setup.rs`: the multi-surface
layout compositor (initial-layout path and resize path, macOS and non-macOS
branches) and the download interceptor.

Conventions of the embedding:
* Physical sizes are Rust `u32`; we model them as `Nat` with explicit
  wraparound `% 2^32` where the source subtracts (release-profile overflow
  semantics).
* Logical positions are Rust `f64`; we model the arithmetic over `ℚ`
  (the expressions involved are exact field arithmetic on the inputs).
* The logical-unit constants `TITLEBAR_HEIGHT` and `ASK_HEIGHT` live in
  `core/constant.rs`, which is not part of the sources; every definition
  takes them as explicit parameters, so theorems quantify over their values
  and concrete instances use representative values.
-/

/-- The `u32` modulus, `2 ^ 32`. -/
def U32_MOD : Nat := 4294967296

/-- Rust `u32` subtraction `a - b` with release-profile wraparound semantics. -/
def sub32 (a b : Nat) : Nat := (U32_MOD + a % U32_MOD - b % U32_MOD) % U32_MOD

/-- A logical-unit position, as passed to `LogicalPosition::new`. -/
structure LogicalPos where
  x : ℚ
  y : ℚ
deriving DecidableEq, Repr

/-- A physical-pixel size, as passed to `PhysicalSize::new`. -/
structure PhysSize where
  width : Nat
  height : Nat
deriving DecidableEq, Repr

/-- Position and size of one surface (one `add_child` / `set_view_properties`
argument pair). -/
structure SurfaceGeometry where
  pos : LogicalPos
  size : PhysSize
deriving DecidableEq, Repr

/-- The geometries of the three named surfaces. -/
structure Layout where
  titlebar : SurfaceGeometry
  main : SurfaceGeometry
  ask : SurfaceGeometry
deriving DecidableEq, Repr

/-- Platform tag selecting between the `cfg(target_os = "macos")` branch and
the `cfg(not(target_os = "macos"))` branch. -/
inductive PlatformTag
  | macos
  | other
deriving DecidableEq, Repr

/-- Rust `f64 as u32` cast of an already-rounded value: saturating at `0`
and `u32::MAX`. -/
def f64_as_u32 (z : ℤ) : Nat := (max 0 (min z (U32_MOD - 1))).toNat

/-- `init`, line 69/70: `(scale_factor * logical).round() as u32`
(`round` is half-away-from-zero; on the nonnegative values arising here it
coincides with `round : ℚ → ℤ`). -/
def physical_height (scale_factor logical : ℚ) : Nat :=
  f64_as_u32 (round (scale_factor * logical))

/-- `init`, line 23: `let ask_mode_height = if conf.ask_mode { ASK_HEIGHT } else { 0.0 }`. -/
def ask_mode_height (ask_mode : Bool) (ASK_HEIGHT : ℚ) : ℚ :=
  if ask_mode then ASK_HEIGHT else 0

/-- `setup_macos_views` (setup.rs lines 110-127): the geometry of the three
`add_child` calls on the macOS initial-layout path.  `win.scale_factor()` is
the same scale factor captured at startup, passed here as `scale_factor`. -/
def setup_macos_views (scale_factor TITLEBAR_HEIGHT ASK_HEIGHT : ℚ)
    (win_size : PhysSize) (titlebar_height ask_height : Nat) : Layout where
  titlebar :=
    ⟨⟨0, 0⟩, ⟨win_size.width, titlebar_height⟩⟩
  ask :=
    ⟨⟨0, (win_size.height : ℚ) / scale_factor - ASK_HEIGHT⟩,
     ⟨win_size.width, ask_height⟩⟩
  main :=
    ⟨⟨0, TITLEBAR_HEIGHT⟩,
     ⟨win_size.width, sub32 (sub32 win_size.height titlebar_height) ask_height⟩⟩

/-- `setup_non_macos_views` (setup.rs lines 130-147): the geometry of the
three `add_child` calls on the non-macOS initial-layout path. -/
def setup_non_macos_views (scale_factor TITLEBAR_HEIGHT ASK_HEIGHT : ℚ)
    (win_size : PhysSize) (titlebar_height ask_height : Nat) : Layout where
  ask :=
    ⟨⟨0, (win_size.height : ℚ) / scale_factor - ASK_HEIGHT⟩,
     ⟨win_size.width, ask_height⟩⟩
  titlebar :=
    ⟨⟨0, (win_size.height : ℚ) / scale_factor - ASK_HEIGHT - TITLEBAR_HEIGHT⟩,
     ⟨win_size.width, titlebar_height⟩⟩
  main :=
    ⟨⟨0, 0⟩,
     ⟨win_size.width, sub32 win_size.height (ask_height + titlebar_height)⟩⟩

/-- Geometry of the resize path `update_view_positions` (setup.rs lines
150-193): the position/size pairs handed to `set_view_properties` for the
three surfaces, per platform branch. -/
def update_layout (p : PlatformTag) (scale_factor TITLEBAR_HEIGHT ASK_HEIGHT : ℚ)
    (size : PhysSize) (titlebar_height ask_height : Nat) : Layout :=
  match p with
  | .macos =>
      { main :=
          ⟨⟨0, TITLEBAR_HEIGHT⟩,
           ⟨size.width, sub32 size.height (titlebar_height + ask_height)⟩⟩
        titlebar :=
          ⟨⟨0, 0⟩, ⟨size.width, titlebar_height⟩⟩
        ask :=
          ⟨⟨0, (size.height : ℚ) / scale_factor - ASK_HEIGHT⟩,
           ⟨size.width, ask_height⟩⟩ }
  | .other =>
      { main :=
          ⟨⟨0, 0⟩,
           ⟨size.width, sub32 size.height (ask_height + titlebar_height)⟩⟩
        titlebar :=
          ⟨⟨0, (size.height : ℚ) / scale_factor - TITLEBAR_HEIGHT⟩,
           ⟨size.width, titlebar_height⟩⟩
        ask :=
          ⟨⟨0, (size.height : ℚ) / scale_factor - ASK_HEIGHT - TITLEBAR_HEIGHT⟩,
           ⟨size.width, ask_height⟩⟩ }

/-- Current position/size of a live webview, as mutated by
`set_position` / `set_size`. -/
structure ViewState where
  pos : LogicalPos
  size : PhysSize
deriving DecidableEq, Repr

/-- The three live webviews fetched by `update_view_positions` via
`win.get_webview`. -/
structure Views where
  main : ViewState
  titlebar : ViewState
  ask : ViewState
deriving DecidableEq, Repr

/-- Injected outcomes of the six toolkit calls made during one resize event:
`true` means the corresponding `set_position` / `set_size` call returns
`Err`. -/
structure FailSpec where
  main_pos : Bool
  main_size : Bool
  titlebar_pos : Bool
  titlebar_size : Bool
  ask_pos : Bool
  ask_size : Bool
deriving DecidableEq, Repr

/-- `set_view_properties` (setup.rs lines 196-203): `set_position`, then
`set_size`; each failure is reported via `eprintln` and does not stop the
other call.  `pos_err` / `size_err` model the results of the two toolkit
calls; the returned list is the emitted log lines. -/
def set_view_properties (pos_err size_err : Bool) (view : ViewState)
    (position : LogicalPos) (size : PhysSize) : ViewState × List String :=
  let step1 :=
    if pos_err then (view, ["[view:position] Failed to set view position"])
    else ({ view with pos := position }, [])
  let step2 :=
    if size_err then (step1.1, ["[view:size] Failed to set view size"])
    else ({ step1.1 with size := size }, [])
  (step2.1, step1.2 ++ step2.2)

/-- `update_view_positions` (setup.rs lines 150-193) as a state transformer on
the three live views: applies `set_view_properties` to `main`, `titlebar` and
`ask`, in source order, with the geometry of `update_layout`; returns the new
view states and the concatenated log lines. -/
def update_view_positions (p : PlatformTag) (fail : FailSpec) (views : Views)
    (scale_factor TITLEBAR_HEIGHT ASK_HEIGHT : ℚ) (size : PhysSize)
    (titlebar_height ask_height : Nat) : Views × List String :=
  let L := update_layout p scale_factor TITLEBAR_HEIGHT ASK_HEIGHT size
      titlebar_height ask_height
  let rmain := set_view_properties fail.main_pos fail.main_size views.main
      L.main.pos L.main.size
  let rtitlebar := set_view_properties fail.titlebar_pos fail.titlebar_size
      views.titlebar L.titlebar.pos L.titlebar.size
  let rask := set_view_properties fail.ask_pos fail.ask_size views.ask
      L.ask.pos L.ask.size
  (⟨rmain.1, rtitlebar.1, rask.1⟩, rmain.2 ++ rtitlebar.2 ++ rask.2)

/-- A filesystem path, `PathBuf`: an absolute flag plus the list of
components. -/
structure FsPath where
  absolute : Bool
  components : List String
deriving DecidableEq, Repr

/-- Rust `PathBuf::new()`: the empty path (initial `DownloadSlot` value,
setup.rs line 53). -/
def FsPath.empty : FsPath := ⟨false, []⟩

/-- Rust `PathBuf::join`: appends the argument's components, except that an
absolute argument replaces the receiver wholesale. -/
def FsPath.join (p q : FsPath) : FsPath :=
  if q.absolute then q else ⟨p.absolute, p.components ++ q.components⟩

/-- Modelled from the spec: `destination.fileName`, the final path component
of the proposed destination (spec section 4.3; no such extraction exists in
the source). -/
def FsPath.fileName (p : FsPath) : Option String := p.components.getLast?

/-- Modelled from the spec: the redirected path of spec section 4.3,
`platformDownloadDirectory / destination.fileName`. -/
def spec_redirect (download_dir destination : FsPath) : FsPath :=
  ⟨download_dir.absolute, download_dir.components ++ destination.fileName.toList⟩

/-- The download events the handler matches on. -/
inductive DlEvent
  | Requested (destination : FsPath)
  | Finished (success : Bool)
  | Other
deriving DecidableEq, Repr

/-- Observable outcome of one `handle_download_event` invocation. -/
structure DlResult where
  /-- The `DownloadSlot` (`download_path` mutex) after the event. -/
  download_path : FsPath
  /-- The value written back through the `destination` out-parameter, when
  the event is `Requested`. -/
  redirected : Option FsPath
  /-- The arguments passed to `app_handle.shell().open`, in order. -/
  opened : List FsPath
  /-- Whether an `.expect` fired (the handler panicked). -/
  panicked : Bool
deriving DecidableEq, Repr

/-- `handle_download_event` (setup.rs lines 91-107).  `download_dir` is the
platform download directory, `open_ok` the result of the platform open-file
action (`false` = the call returns `Err`, on which the source's `.expect`
panics), `download_path` the slot value before the event. -/
def handle_download_event (download_dir : FsPath) (open_ok : FsPath → Bool)
    (download_path : FsPath) : DlEvent → DlResult
  | .Requested destination =>
      let locked_path := download_dir.join destination
      { download_path := locked_path
        redirected := some locked_path
        opened := []
        panicked := false }
  | .Finished success =>
      let final_path := download_path
      if success then
        { download_path := download_path
          redirected := none
          opened := [final_path]
          panicked := !(open_ok final_path) }
      else
        { download_path := download_path
          redirected := none
          opened := []
          panicked := false }
  | .Other =>
      { download_path := download_path
        redirected := none
        opened := []
        panicked := false }

/-- In-range `u32` subtraction agrees with `Nat` subtraction. -/
theorem sub32_of_le {a b : Nat} (hb : b ≤ a) (ha : a < U32_MOD) :
    sub32 a b = a - b := by
  simp only [sub32, U32_MOD] at *
  omega

/-- Underflowing `u32` subtraction wraps around. -/
theorem sub32_of_lt {a b : Nat} (hab : a < b) (hb : b < U32_MOD) :
    sub32 a b = U32_MOD + a - b := by
  simp only [sub32, U32_MOD] at *
  omega

/-- C1: for every scale factor, every pair of logical-height constants, every
window physical size and every pair of physical strip heights with
`titlebar_height + ask_height ≤ H`, the three surface heights sum exactly to
the window physical height `H` — on the macOS initial path, the non-macOS
initial path, and both platform branches of the resize path. -/
theorem C1_three_heights_sum_to_window_height
    (scale TB ASK : ℚ) (w H tb ask : Nat)
    (hH : H < U32_MOD) (hle : tb + ask ≤ H) :
    ((setup_macos_views scale TB ASK ⟨w, H⟩ tb ask).titlebar.size.height
        + (setup_macos_views scale TB ASK ⟨w, H⟩ tb ask).main.size.height
        + (setup_macos_views scale TB ASK ⟨w, H⟩ tb ask).ask.size.height = H)
    ∧ ((setup_non_macos_views scale TB ASK ⟨w, H⟩ tb ask).titlebar.size.height
        + (setup_non_macos_views scale TB ASK ⟨w, H⟩ tb ask).main.size.height
        + (setup_non_macos_views scale TB ASK ⟨w, H⟩ tb ask).ask.size.height = H)
    ∧ (∀ p : PlatformTag,
        (update_layout p scale TB ASK ⟨w, H⟩ tb ask).titlebar.size.height
          + (update_layout p scale TB ASK ⟨w, H⟩ tb ask).main.size.height
          + (update_layout p scale TB ASK ⟨w, H⟩ tb ask).ask.size.height = H) := by
  have h1 : sub32 H tb = H - tb := sub32_of_le (by omega) hH
  have h2 : sub32 (H - tb) ask = H - tb - ask := sub32_of_le (by omega) (by omega)
  have h3 : sub32 H (ask + tb) = H - (ask + tb) := sub32_of_le (by omega) hH
  have h4 : sub32 H (tb + ask) = H - (tb + ask) := sub32_of_le (by omega) hH
  refine ⟨?_, ?_, ?_⟩
  · simp only [setup_macos_views, h1, h2]
    omega
  · simp only [setup_non_macos_views, h3]
    omega
  · intro p
    cases p <;> simp only [update_layout, h3, h4] <;> omega

/-- Witness for C1 at window height 600, titlebar strip 28, ask strip 120. -/
theorem C1_three_heights_sum_to_window_height_witness :
    (600 : Nat) < U32_MOD ∧ 28 + 120 ≤ 600 ∧
      ((setup_macos_views 1 28 120 ⟨800, 600⟩ 28 120).titlebar.size.height
        + (setup_macos_views 1 28 120 ⟨800, 600⟩ 28 120).main.size.height
        + (setup_macos_views 1 28 120 ⟨800, 600⟩ 28 120).ask.size.height = 600) :=
  ⟨by norm_num [U32_MOD], by norm_num,
    (C1_three_heights_sum_to_window_height 1 28 120 800 600 28 120
      (by norm_num [U32_MOD]) (by norm_num)).1⟩

/-- C2: evaluation at the failing input (non-macOS, window 800x600 physical,
scale 1.0, TITLEBAR_HEIGHT = 28, ASK_HEIGHT = 120, ask mode enabled): the
resize path places the titlebar at y = 572 and the ask strip at y = 452,
while the initial path — which matches the spec's non-macOS stacking — places
the titlebar at y = 452 and the ask strip at y = 480; the resize-path layout
therefore differs from the initial-path layout on identical inputs. -/
theorem C2_non_macos_resize_differs_from_initial :
    (update_layout .other 1 28 120 ⟨800, 600⟩ 28 120).titlebar.pos.y = 572
    ∧ (setup_non_macos_views 1 28 120 ⟨800, 600⟩ 28 120).titlebar.pos.y = 452
    ∧ (update_layout .other 1 28 120 ⟨800, 600⟩ 28 120).ask.pos.y = 452
    ∧ (setup_non_macos_views 1 28 120 ⟨800, 600⟩ 28 120).ask.pos.y = 480
    ∧ update_layout .other 1 28 120 ⟨800, 600⟩ 28 120
        ≠ setup_non_macos_views 1 28 120 ⟨800, 600⟩ 28 120 := by
  have h1 : (update_layout .other 1 28 120 ⟨800, 600⟩ 28 120).titlebar.pos.y
      = 572 := by
    norm_num [update_layout]
  have h2 : (setup_non_macos_views 1 28 120 ⟨800, 600⟩ 28 120).titlebar.pos.y
      = 452 := by
    norm_num [setup_non_macos_views]
  have h3 : (update_layout .other 1 28 120 ⟨800, 600⟩ 28 120).ask.pos.y
      = 452 := by
    norm_num [update_layout]
  have h4 : (setup_non_macos_views 1 28 120 ⟨800, 600⟩ 28 120).ask.pos.y
      = 480 := by
    norm_num [setup_non_macos_views]
  refine ⟨h1, h2, h3, h4, fun h => ?_⟩
  rw [h, h2] at h1
  norm_num at h1

/-- C3 counterexample: at the claim's own scenario (macOS, 600-logical-pixel
window at scale 1.0, ask mode disabled, so the claimed askHeightLogical is 0)
the code places the ask surface at y = 600 − ASK_HEIGHT = 480, not at
y = 600 − 0. -/
theorem C3_counterexample_ask_position :
    (setup_macos_views 1 28 120 ⟨800, 600⟩ (physical_height 1 28)
        (physical_height 1 (ask_mode_height false 120))).ask.pos.y
      ≠ 600 - 0 := by
  norm_num [setup_macos_views]

/-- C3 amended: the ask surface's y-position is computed from the constant
`ASK_HEIGHT` irrespective of the ask-mode flag: `H/scale − ASK_HEIGHT` on both
initial-layout paths and on the macOS resize branch, and
`H/scale − ASK_HEIGHT − TITLEBAR_HEIGHT` on the non-macOS resize branch. -/
theorem C3_ask_position_uses_constant (scale TB ASK : ℚ) (w H tb ask : Nat) :
    ((setup_macos_views scale TB ASK ⟨w, H⟩ tb ask).ask.pos.y
        = (H : ℚ) / scale - ASK)
    ∧ ((setup_non_macos_views scale TB ASK ⟨w, H⟩ tb ask).ask.pos.y
        = (H : ℚ) / scale - ASK)
    ∧ ((update_layout .macos scale TB ASK ⟨w, H⟩ tb ask).ask.pos.y
        = (H : ℚ) / scale - ASK)
    ∧ ((update_layout .other scale TB ASK ⟨w, H⟩ tb ask).ask.pos.y
        = (H : ℚ) / scale - ASK - TB) :=
  ⟨rfl, rfl, rfl, rfl⟩

/-- C4 counterexample: with proposed destination "sub/report.pdf" the stored
path keeps every component of the destination, not only its file name. -/
theorem C4_counterexample_full_destination_joined :
    (handle_download_event ⟨true, ["Downloads"]⟩ (fun _ => true) FsPath.empty
        (.Requested ⟨false, ["sub", "report.pdf"]⟩)).download_path
      ≠ spec_redirect ⟨true, ["Downloads"]⟩ ⟨false, ["sub", "report.pdf"]⟩ := by
  decide

/-- C4 amended: the path stored in the slot and handed back to the toolkit is
`platformDownloadDirectory.join(d)` for the entire proposed destination `d`
(all of its components; an absolute `d` replaces the directory wholesale),
overwriting any previously stored value; it coincides with the spec's
directory/fileName form exactly in the case of a single relative component,
as in the "report.pdf" scenario. -/
theorem C4_requested_joins_whole_destination
    (download_dir prior dest : FsPath) (o : FsPath → Bool) :
    ((handle_download_event download_dir o prior (.Requested dest)).download_path
        = download_dir.join dest)
    ∧ ((handle_download_event download_dir o prior (.Requested dest)).redirected
        = some (download_dir.join dest))
    ∧ (∀ name : String,
        download_dir.join ⟨false, [name]⟩ = spec_redirect download_dir ⟨false, [name]⟩) :=
  ⟨rfl, rfl, fun _ => rfl⟩

/-- C5: on `Finished(success = true)` the open-file action is invoked exactly
once, with the path currently in the slot; on `Finished(success = false)` it
is never invoked and the slot value is unchanged. -/
theorem C5_finished_open_semantics (download_dir slot : FsPath) (o : FsPath → Bool) :
    ((handle_download_event download_dir o slot (.Finished true)).opened = [slot])
    ∧ ((handle_download_event download_dir o slot (.Finished false)).opened = [])
    ∧ ((handle_download_event download_dir o slot (.Finished false)).download_path
        = slot) :=
  ⟨rfl, rfl, rfl⟩

/-- C6 counterexample: when the open-file action fails after a successful
download, the handler panics (the source's `.expect` fires) instead of
returning normally. -/
theorem C6_counterexample_open_failure_panics :
    (handle_download_event ⟨true, ["Downloads"]⟩ (fun _ => false)
        ⟨true, ["Downloads", "report.pdf"]⟩ (.Finished true)).panicked = true :=
  rfl

/-- C6 amended: a failure of the open-file action after a successful download
aborts the handler via panic (`.expect`), rather than being logged and
recovered; the action was still invoked exactly once and the slot — hence the
downloaded file's recorded path — is unchanged. -/
theorem C6_open_failure_aborts (download_dir slot : FsPath) (o : FsPath → Bool)
    (h : o slot = false) :
    ((handle_download_event download_dir o slot (.Finished true)).panicked = true)
    ∧ ((handle_download_event download_dir o slot (.Finished true)).opened = [slot])
    ∧ ((handle_download_event download_dir o slot (.Finished true)).download_path
        = slot) := by
  refine ⟨?_, rfl, rfl⟩
  simp [handle_download_event, h]

/-- Witness for C6 at a concrete directory, slot and failing open action. -/
theorem C6_open_failure_aborts_witness :
    ((fun _ : FsPath => false) ⟨true, ["Downloads", "a.pdf"]⟩ = false)
    ∧ (handle_download_event ⟨true, ["Downloads"]⟩ (fun _ => false)
        ⟨true, ["Downloads", "a.pdf"]⟩ (.Finished true)).panicked = true :=
  ⟨rfl, (C6_open_failure_aborts ⟨true, ["Downloads"]⟩ ⟨true, ["Downloads", "a.pdf"]⟩
    (fun _ => false) rfl).1⟩

/-- C7: during a single resize event every failing `set_position` /
`set_size` call produces exactly one log line, and each surface's applied
geometry depends only on its own two call outcomes: a call that succeeds
installs the computed value no matter which other calls fail, and a call
that fails leaves only that surface's corresponding field stale. -/
theorem C7_resize_failures_are_isolated (p : PlatformTag) (fail : FailSpec)
    (views : Views) (scale TB ASK : ℚ) (size : PhysSize) (tb ask : Nat) :
    ((update_view_positions p fail views scale TB ASK size tb ask).1.main.pos
        = if fail.main_pos then views.main.pos
          else (update_layout p scale TB ASK size tb ask).main.pos)
    ∧ ((update_view_positions p fail views scale TB ASK size tb ask).1.main.size
        = if fail.main_size then views.main.size
          else (update_layout p scale TB ASK size tb ask).main.size)
    ∧ ((update_view_positions p fail views scale TB ASK size tb ask).1.titlebar.pos
        = if fail.titlebar_pos then views.titlebar.pos
          else (update_layout p scale TB ASK size tb ask).titlebar.pos)
    ∧ ((update_view_positions p fail views scale TB ASK size tb ask).1.titlebar.size
        = if fail.titlebar_size then views.titlebar.size
          else (update_layout p scale TB ASK size tb ask).titlebar.size)
    ∧ ((update_view_positions p fail views scale TB ASK size tb ask).1.ask.pos
        = if fail.ask_pos then views.ask.pos
          else (update_layout p scale TB ASK size tb ask).ask.pos)
    ∧ ((update_view_positions p fail views scale TB ASK size tb ask).1.ask.size
        = if fail.ask_size then views.ask.size
          else (update_layout p scale TB ASK size tb ask).ask.size)
    ∧ ((update_view_positions p fail views scale TB ASK size tb ask).2.length
        = (if fail.main_pos then 1 else 0) + (if fail.main_size then 1 else 0)
          + (if fail.titlebar_pos then 1 else 0)
          + (if fail.titlebar_size then 1 else 0)
          + (if fail.ask_pos then 1 else 0) + (if fail.ask_size then 1 else 0)) := by
  obtain ⟨f1, f2, f3, f4, f5, f6⟩ := fail
  cases f1 <;> cases f2 <;> cases f3 <;> cases f4 <;> cases f5 <;> cases f6 <;>
    simp [update_view_positions, set_view_properties]

/-- C8: with ask mode disabled the computed physical ask height is exactly 0,
for every scale factor and every value of the `ASK_HEIGHT` constant. -/
theorem C8_ask_disabled_zero_physical_height (scale ASK : ℚ) :
    physical_height scale (ask_mode_height false ASK) = 0 := by
  norm_num [physical_height, ask_mode_height, f64_as_u32, U32_MOD]

/-- C9 counterexample: with window physical height 100 and strips 60 + 60 the
main surface's height is the u32-wrapped value 4294967276, not the negative
value 100 − 60 − 60. -/
theorem C9_counterexample_no_negative_height :
    (((update_layout .macos 1 60 60 ⟨800, 100⟩ 60 60).main.size.height : ℤ)
        ≠ (100 : ℤ) - 60 - 60)
    ∧ (update_layout .macos 1 60 60 ⟨800, 100⟩ 60 60).main.size.height
        = 4294967276 := by
  constructor
  · norm_num [update_layout, sub32, U32_MOD]
  · norm_num [update_layout, sub32, U32_MOD]

/-- C9 amended: when the reserved strips exceed the window physical height,
the main surface's height is the u32-wrapped (release-profile) value
`2^32 + H − titlebar_height − ask_height` — a large positive number, not a
negative one — with no clamping to zero and no layout error, on all four
layout paths. -/
theorem C9_overflowing_main_height_wraps (scale TB ASK : ℚ) (w H tb ask : Nat)
    (hH : H < U32_MOD) (hsum : tb + ask < U32_MOD) (hlt : H < tb + ask) :
    ((setup_macos_views scale TB ASK ⟨w, H⟩ tb ask).main.size.height
        = U32_MOD + H - tb - ask)
    ∧ ((setup_non_macos_views scale TB ASK ⟨w, H⟩ tb ask).main.size.height
        = U32_MOD + H - tb - ask)
    ∧ (∀ p : PlatformTag,
        (update_layout p scale TB ASK ⟨w, H⟩ tb ask).main.size.height
          = U32_MOD + H - tb - ask) := by
  have hMOD : (0 : Nat) < U32_MOD := by norm_num [U32_MOD]
  have h3 : sub32 H (ask + tb) = U32_MOD + H - (ask + tb) :=
    sub32_of_lt (by omega) (by omega)
  have h4 : sub32 H (tb + ask) = U32_MOD + H - (tb + ask) :=
    sub32_of_lt (by omega) (by omega)
  have hmac : sub32 (sub32 H tb) ask = U32_MOD + H - tb - ask := by
    rcases le_or_lt tb H with htb | htb
    · have h1 : sub32 H tb = H - tb := sub32_of_le htb hH
      have h2 : sub32 (H - tb) ask = U32_MOD + (H - tb) - ask :=
        sub32_of_lt (by omega) (by omega)
      rw [h1, h2]
      omega
    · have h1 : sub32 H tb = U32_MOD + H - tb := sub32_of_lt htb (by omega)
      have h2 : sub32 (U32_MOD + H - tb) ask = (U32_MOD + H - tb) - ask :=
        sub32_of_le (by omega) (by omega)
      rw [h1, h2]
  refine ⟨?_, ?_, ?_⟩
  · simp only [setup_macos_views, hmac]
  · simp only [setup_non_macos_views, h3]
    omega
  · intro p
    cases p <;> simp only [update_layout, h3, h4] <;> omega

/-- Witness for C9 at window height 100 with strips 60 + 60. -/
theorem C9_overflowing_main_height_wraps_witness :
    (100 : Nat) < U32_MOD ∧ 60 + 60 < U32_MOD ∧ (100 : Nat) < 60 + 60 ∧
      (setup_macos_views 1 60 60 ⟨800, 100⟩ 60 60).main.size.height
        = U32_MOD + 100 - 60 - 60 :=
  ⟨by norm_num [U32_MOD], by norm_num [U32_MOD], by norm_num,
    (C9_overflowing_main_height_wraps 1 60 60 800 100 60 60
      (by norm_num [U32_MOD]) (by norm_num [U32_MOD]) (by norm_num)).1⟩

/-- C10: a `Finished(success = true)` event arriving before any `Requested`
event invokes the open-file action with the empty path the slot was
initialised with. -/
theorem C10_finished_before_any_request_opens_empty_path
    (download_dir : FsPath) (o : FsPath → Bool) :
    (handle_download_event download_dir o FsPath.empty (.Finished true)).opened
      = [FsPath.empty] :=
  rfl
